import Mathlib

/-
Verification development for the RecipeData repository.

The code under verification is the query-translation and pagination layer of
the recipe REST API:
  * backend/controllers (getRecipes - the list endpoint, "Shape A");
  * the search endpoint, Variant B1 (q / cuisine / minRating / maxPrepTime /
    maxCookTime) and Variant B2 (title / cuisine / rating+ratingOp /
    calories+caloriesOp / total_time+timeOp);
  * backend/seed.js (record normalisation during import).

JavaScript query-string values are modelled as `Option String` (absent vs a
string), JavaScript numbers as `JsNum` (NaN or a rational), and the MongoDB
collection as a `List Recipe`.  `find(query).sort(s).skip(k).limit(n)` is
modelled as filter, stable merge sort, drop, take; `countDocuments(query)` as
the length of the filtered list.
-/

set_option linter.unusedVariables false

namespace RecipeData

/-- A JavaScript number: NaN or a rational value.  (The code only produces
numbers via parseInt / parseFloat, so rationals suffice.) -/
inductive JsNum where
  | nan : JsNum
  | num : ℚ → JsNum
deriving DecidableEq, Repr

/-- Whitespace skipped by JavaScript numeric parsing. -/
def jsWhitespace (c : Char) : Bool := c = ' ' || c = '\t' || c = '\n' || c = '\r'

/-- Value of a list of decimal digit characters. -/
def digitsVal (l : List Char) : Nat := l.foldl (fun a c => a * 10 + (c.toNat - 48)) 0

/-- JavaScript parseFloat, restricted to optional sign, integer digits and a
decimal fraction (no exponent; none of the query values in scope use one).
Returns NaN when no digits are found, e.g. on "", "null", "undefined". -/
def parseFloat (s : String) : JsNum :=
  let l := s.toList.dropWhile jsWhitespace
  let sign : Int := match l with | '-' :: _ => -1 | _ => 1
  let l1 := match l with | '-' :: t => t | '+' :: t => t | _ => l
  let ip := l1.takeWhile Char.isDigit
  let rest := l1.dropWhile Char.isDigit
  let fp := match rest with | '.' :: t => t.takeWhile Char.isDigit | _ => []
  if ip.isEmpty && fp.isEmpty then .nan
  else .num (mkRat (sign * ((digitsVal ip * 10 ^ fp.length + digitsVal fp : Nat) : Int))
    (10 ^ fp.length))

/-- JavaScript parseInt(s, 10): optional sign followed by leading decimal
digits; `none` stands for NaN (no digits). -/
def parseIntJs (s : String) : Option Int :=
  let l := s.toList.dropWhile jsWhitespace
  let sign : Int := match l with | '-' :: _ => -1 | _ => 1
  let l1 := match l with | '-' :: t => t | '+' :: t => t | _ => l
  let ip := l1.takeWhile Char.isDigit
  if ip.isEmpty then none else some (sign * (digitsVal ip : Int))

/-- The JavaScript idiom `parseInt(x) || d`: NaN and 0 are falsy and fall back
to the default. -/
def jsOrInt (x : Option Int) (d : Int) : Int :=
  match x with
  | none => d
  | some v => if v = 0 then d else v

/-- The JavaScript idiom `s || d` on string parameters: absent and "" are
falsy and fall back to the default. -/
def jsOrStr (x : Option String) (d : String) : String :=
  match x with
  | none => d
  | some s => if s = "" then d else s

/-- Truthiness of a query-string parameter: present and non-empty. -/
def truthy (x : Option String) : Bool :=
  match x with
  | none => false
  | some s => s != ""

/-- `parseInt` applied to a query parameter (parseInt(undefined) is NaN). -/
def parseIntParam (x : Option String) : Option Int :=
  match x with
  | none => none
  | some s => parseIntJs s

/-- A MongoDB comparison/equality condition on a numeric field, as written by
the translators: `{ $gte: v }`, `{ $lte: v }`, or a bare value `v`. -/
inductive NumFilter where
  | gte : JsNum → NumFilter
  | lte : JsNum → NumFilter
  | eq : JsNum → NumFilter
deriving DecidableEq, Repr

/-- A stored recipe record.  Numeric fields are number-or-null (the schema's
pre-save hook normalises NaN to null); calories is stored as a string. -/
structure Recipe where
  title : String := ""
  cuisine : String := ""
  description : String := ""
  rating : Option ℚ := none
  prep_time : Option ℚ := none
  cook_time : Option ℚ := none
  total_time : Option ℚ := none
  nutrientsCalories : Option String := none
deriving DecidableEq, Repr

/-- Does `pat` occur at the start of `hay`? -/
def matchesAt (pat hay : List Char) : Bool :=
  match pat, hay with
  | [], _ => true
  | _ :: _, [] => false
  | p :: ps, h :: hs => p = h && matchesAt ps hs

/-- Does `pat` occur anywhere in `hay`? -/
def subOccurs (pat hay : List Char) : Bool :=
  match hay with
  | [] => pat.isEmpty
  | _ :: hs => matchesAt pat hay || subOccurs pat hs

/-- Case-insensitive substring containment: the semantics of
`{ $regex: pat, $options: 'i' }` for the plain (metacharacter-free) patterns
the API passes through. -/
def containsCI (hay pat : String) : Bool := subOccurs pat.toLower.toList hay.toLower.toList

/-- MongoDB semantics of one numeric condition against a number-or-null
field.  NaN is a number that is equal to itself and less than every other
number; null/missing is in a lower type bracket than any number, so a numeric
comparison never matches it. -/
def matchNum (field : Option ℚ) : NumFilter → Bool
  | .gte .nan => field.isSome
  | .gte (.num x) => match field with | some v => decide (x ≤ v) | none => false
  | .lte .nan => false
  | .lte (.num x) => match field with | some v => decide (v ≤ x) | none => false
  | .eq .nan => false
  | .eq (.num x) => decide (field = some x)

/-- An absent filter key matches everything. -/
def matchNumOpt (f : Option NumFilter) (field : Option ℚ) : Bool :=
  match f with
  | none => true
  | some nf => matchNum field nf

/-- An absent substring filter matches everything. -/
def matchStrOpt (f : Option String) (field : String) : Bool :=
  match f with
  | none => true
  | some pat => containsCI field pat

/-- A numeric condition against a string-typed stored field (nutrients.calories)
never matches: numbers and strings are different BSON type brackets. -/
def matchNumOnStr (f : Option NumFilter) (field : Option String) : Bool :=
  match f with
  | none => true
  | some _ => false

/-- Query-string parameters read by the list endpoint (getRecipes). -/
structure ParamsA where
  page : Option String := none
  limit : Option String := none
  sortBy : Option String := none
  sortOrder : Option String := none
  q : Option String := none
  cuisine : Option String := none
  rating : Option String := none
  maxTotalTime : Option String := none
  prep_time : Option String := none
  cook_time : Option String := none
  total_time : Option String := none
deriving DecidableEq, Repr

/-- The filter object built by getRecipes: one key per recipe field, plus the
$or-of-three-substring text clause for `q`. -/
structure QueryA where
  qOr : Option String := none
  cuisine : Option String := none
  rating : Option NumFilter := none
  prep_time : Option NumFilter := none
  cook_time : Option NumFilter := none
  total_time : Option NumFilter := none
deriving DecidableEq, Repr

/-- getRecipes' handleNumberFilter: the strings "null" and "undefined" become
null, as does anything parseFloat cannot parse; otherwise the parsed number. -/
def handleNumberFilter (value : String) : Option ℚ :=
  if value = "null" || value = "undefined" then none
  else match parseFloat value with
    | .nan => none
    | .num n => some n

/-- One step of getRecipes' numeric-filter forEach: when the parameter is
present (strict `!== undefined`) and handleNumberFilter yields a number, the
filter key is overwritten with a bare exact-equality value; otherwise the key
keeps whatever an earlier pass wrote. -/
def applyExact (cur : Option NumFilter) (param : Option String) : Option NumFilter :=
  match param with
  | none => cur
  | some s =>
    match handleNumberFilter s with
    | none => cur
    | some v => some (.eq (.num v))

/-- getRecipes, text-search pass: `if (req.query.q) query.$or = [...]`. -/
def passAText (p : ParamsA) (q : QueryA) : QueryA :=
  if truthy p.q then { q with qOr := some (p.q.getD "") } else q

/-- getRecipes, cuisine pass: `if (req.query.cuisine) query.cuisine = ...`. -/
def passACuisine (p : ParamsA) (q : QueryA) : QueryA :=
  if truthy p.cuisine then { q with cuisine := some (p.cuisine.getD "") } else q

/-- getRecipes, minimum-rating pass:
`if (req.query.rating) query.rating = { $gte: parseFloat(req.query.rating) }`. -/
def passAMinRating (p : ParamsA) (q : QueryA) : QueryA :=
  if truthy p.rating then
    { q with rating := some (.gte (parseFloat (p.rating.getD ""))) } else q

/-- getRecipes, maximum-total-time pass:
`if (req.query.maxTotalTime) query.total_time = { $lte: parseInt(...) }`. -/
def passAMaxTotalTime (p : ParamsA) (q : QueryA) : QueryA :=
  if truthy p.maxTotalTime then
    { q with total_time := some (.lte (match parseIntParam p.maxTotalTime with
        | none => .nan
        | some v => .num (v : ℚ))) } else q

/-- getRecipes, exact-equality forEach over
['prep_time', 'cook_time', 'total_time', 'rating']. -/
def passAExact (p : ParamsA) (q : QueryA) : QueryA :=
  { q with
    prep_time := applyExact q.prep_time p.prep_time
    cook_time := applyExact q.cook_time p.cook_time
    total_time := applyExact q.total_time p.total_time
    rating := applyExact q.rating p.rating }

/-- Query construction of the list endpoint: the passes in source order, from
the empty filter object. -/
def buildQueryA (p : ParamsA) : QueryA :=
  passAExact p (passAMaxTotalTime p (passAMinRating p (passACuisine p (passAText p {}))))

/-- Does a record match the list endpoint's filter object? -/
def matchQueryA (qu : QueryA) (r : Recipe) : Bool :=
  (match qu.qOr with
   | none => true
   | some pat => containsCI r.title pat || containsCI r.cuisine pat || containsCI r.description pat) &&
  matchStrOpt qu.cuisine r.cuisine &&
  matchNumOpt qu.rating r.rating &&
  matchNumOpt qu.prep_time r.prep_time &&
  matchNumOpt qu.cook_time r.cook_time &&
  matchNumOpt qu.total_time r.total_time

/-- Sort key of a record for a given sortBy field name (the numeric fields the
API documents as sortable; anything else sorts as a missing key). -/
def sortVal (field : String) (r : Recipe) : Option ℚ :=
  match field with
  | "rating" => r.rating
  | "prep_time" => r.prep_time
  | "cook_time" => r.cook_time
  | "total_time" => r.total_time
  | _ => none

/-- MongoDB sort comparison for `{ [field]: dir }` with dir 1 or -1:
null/missing sorts below every number; -1 reverses the order. -/
def sortLe (field : String) (dir : Int) (a b : Recipe) : Bool :=
  let le := fun (x y : Option ℚ) =>
    match x, y with
    | none, _ => true
    | some _, none => false
    | some u, some v => decide (u ≤ v)
  if dir = 1 then le (sortVal field a) (sortVal field b)
  else le (sortVal field b) (sortVal field a)

/-- find(query).sort(sort).skip(skip).limit(limit).lean(): filter, stable
sort, drop, take.  A negative skip or limit is clamped at 0 here; the paging
claims are stated for page ≥ 1 and limit ≥ 1 where no clamping occurs. -/
def findRecipes (db : List Recipe) (keep : Recipe → Bool) (field : String) (dir : Int)
    (skip limit : Int) : List Recipe :=
  ((((db.filter keep).mergeSort (sortLe field dir)).drop skip.toNat).take limit.toNat)

/-- countDocuments(query): how many records match the filter. -/
def countDocuments (db : List Recipe) (keep : Recipe → Bool) : Nat :=
  (db.filter keep).length

/-- Response envelope of the list endpoint (with the success flag). -/
structure ResponseA where
  success : Bool
  page : Int
  limit : Int
  total : Nat
  data : List Recipe
deriving DecidableEq, Repr

/-- Response envelope of the search endpoints (no success flag). -/
structure ResponseB where
  page : Int
  limit : Int
  total : Nat
  data : List Recipe
deriving DecidableEq, Repr

/-- GET /api/recipes - the list endpoint, run against an in-model collection. -/
def getRecipes (db : List Recipe) (p : ParamsA) : ResponseA :=
  let page := jsOrInt (parseIntParam p.page) 1
  let limit := jsOrInt (parseIntParam p.limit) 10
  let skip := (page - 1) * limit
  let sortBy := jsOrStr p.sortBy "rating"
  let sortOrder : Int := if p.sortOrder = some "asc" then 1 else -1
  let query := buildQueryA p
  { success := true
    page := page
    limit := limit
    total := countDocuments db (matchQueryA query)
    data := findRecipes db (matchQueryA query) sortBy sortOrder skip limit }

/-- Query-string parameters read by the search endpoint, Variant B1. -/
structure ParamsB1 where
  q : Option String := none
  cuisine : Option String := none
  minRating : Option String := none
  maxPrepTime : Option String := none
  maxCookTime : Option String := none
  page : Option String := none
  limit : Option String := none
  sortBy : Option String := none
  sortOrder : Option String := none
deriving DecidableEq, Repr

/-- The filter object built by Variant B1: the $or text clause covers title
and description only. -/
structure QueryB1 where
  qOr : Option String := none
  cuisine : Option String := none
  rating : Option NumFilter := none
  prep_time : Option NumFilter := none
  cook_time : Option NumFilter := none
deriving DecidableEq, Repr

/-- Variant B1, text-search pass (title/description only). -/
def passB1Text (p : ParamsB1) (q : QueryB1) : QueryB1 :=
  if truthy p.q then { q with qOr := some (p.q.getD "") } else q

/-- Variant B1, cuisine pass. -/
def passB1Cuisine (p : ParamsB1) (q : QueryB1) : QueryB1 :=
  if truthy p.cuisine then { q with cuisine := some (p.cuisine.getD "") } else q

/-- Variant B1, minRating pass: the $gte filter is applied only when
parseFloat yields a number in [1,5]. -/
def passB1MinRating (p : ParamsB1) (q : QueryB1) : QueryB1 :=
  if truthy p.minRating then
    match parseFloat (p.minRating.getD "") with
    | .num v => if 1 ≤ v ∧ v ≤ 5 then { q with rating := some (.gte (.num v)) } else q
    | .nan => q
  else q

/-- Variant B1, maxPrepTime pass: the $lte filter is applied only when
parseInt yields a number strictly greater than 0. -/
def passB1MaxPrep (p : ParamsB1) (q : QueryB1) : QueryB1 :=
  if truthy p.maxPrepTime then
    match parseIntParam p.maxPrepTime with
    | some v => if 0 < v then { q with prep_time := some (.lte (.num (v : ℚ))) } else q
    | none => q
  else q

/-- Variant B1, maxCookTime pass: same guard as maxPrepTime. -/
def passB1MaxCook (p : ParamsB1) (q : QueryB1) : QueryB1 :=
  if truthy p.maxCookTime then
    match parseIntParam p.maxCookTime with
    | some v => if 0 < v then { q with cook_time := some (.lte (.num (v : ℚ))) } else q
    | none => q
  else q

/-- Query construction of Variant B1: the passes in source order. -/
def buildQueryB1 (p : ParamsB1) : QueryB1 :=
  passB1MaxCook p (passB1MaxPrep p (passB1MinRating p (passB1Cuisine p (passB1Text p {}))))

/-- Does a record match Variant B1's filter object? -/
def matchQueryB1 (qu : QueryB1) (r : Recipe) : Bool :=
  (match qu.qOr with
   | none => true
   | some pat => containsCI r.title pat || containsCI r.description pat) &&
  matchStrOpt qu.cuisine r.cuisine &&
  matchNumOpt qu.rating r.rating &&
  matchNumOpt qu.prep_time r.prep_time &&
  matchNumOpt qu.cook_time r.cook_time

/-- GET /api/recipes/search, Variant B1. -/
def searchRecipesB1 (db : List Recipe) (p : ParamsB1) : ResponseB :=
  let page := jsOrInt (parseIntParam p.page) 1
  let limit := jsOrInt (parseIntParam p.limit) 10
  let skip := (page - 1) * limit
  let sortBy := jsOrStr p.sortBy "rating"
  let sortOrder : Int := if p.sortOrder = some "asc" then 1 else -1
  let query := buildQueryB1 p
  { page := page
    limit := limit
    total := countDocuments db (matchQueryB1 query)
    data := findRecipes db (matchQueryB1 query) sortBy sortOrder skip limit }

/-- Query-string parameters read by the search endpoint, Variant B2. -/
structure ParamsB2 where
  title : Option String := none
  cuisine : Option String := none
  rating : Option String := none
  ratingOp : Option String := none
  calories : Option String := none
  caloriesOp : Option String := none
  total_time : Option String := none
  timeOp : Option String := none
  page : Option String := none
  limit : Option String := none
  sortBy : Option String := none
  sortOrder : Option String := none
deriving DecidableEq, Repr

/-- The filter object built by Variant B2; calories targets the nested
nutrients.calories key. -/
structure QueryB2 where
  title : Option String := none
  cuisine : Option String := none
  rating : Option NumFilter := none
  nutrientsCalories : Option NumFilter := none
  total_time : Option NumFilter := none
deriving DecidableEq, Repr

/-- Variant B2's buildOperatorQuery: null (skip) when the value does not
parse; otherwise the condition selected by the operator string, with $gte as
the fallback for any unrecognized operator. -/
def buildOperatorQuery (value : String) (operator : String) : Option NumFilter :=
  match parseFloat value with
  | .nan => none
  | .num n =>
    match operator with
    | "gte" => some (.gte (.num n))
    | "lte" => some (.lte (.num n))
    | "eq" => some (.eq (.num n))
    | _ => some (.gte (.num n))

/-- Variant B2, title pass. -/
def passB2Title (p : ParamsB2) (q : QueryB2) : QueryB2 :=
  if truthy p.title then { q with title := some (p.title.getD "") } else q

/-- Variant B2, cuisine pass. -/
def passB2Cuisine (p : ParamsB2) (q : QueryB2) : QueryB2 :=
  if truthy p.cuisine then { q with cuisine := some (p.cuisine.getD "") } else q

/-- Variant B2, rating pass: `buildOperatorQuery(rating, ratingOp || 'gte')`,
skipped when it returns null. -/
def passB2Rating (p : ParamsB2) (q : QueryB2) : QueryB2 :=
  if truthy p.rating then
    match buildOperatorQuery (p.rating.getD "") (jsOrStr p.ratingOp "gte") with
    | some f => { q with rating := some f }
    | none => q
  else q

/-- Variant B2, calories pass: targets the nested nutrients.calories key,
default operator gte. -/
def passB2Calories (p : ParamsB2) (q : QueryB2) : QueryB2 :=
  if truthy p.calories then
    match buildOperatorQuery (p.calories.getD "") (jsOrStr p.caloriesOp "gte") with
    | some f => { q with nutrientsCalories := some f }
    | none => q
  else q

/-- Variant B2, total_time pass: default operator lte. -/
def passB2Time (p : ParamsB2) (q : QueryB2) : QueryB2 :=
  if truthy p.total_time then
    match buildOperatorQuery (p.total_time.getD "") (jsOrStr p.timeOp "lte") with
    | some f => { q with total_time := some f }
    | none => q
  else q

/-- Query construction of Variant B2: the passes in source order. -/
def buildQueryB2 (p : ParamsB2) : QueryB2 :=
  passB2Time p (passB2Calories p (passB2Rating p (passB2Cuisine p (passB2Title p {}))))

/-- Does a record match Variant B2's filter object?  The calories condition
compares a number against a string-typed stored field, so it never matches
when present. -/
def matchQueryB2 (qu : QueryB2) (r : Recipe) : Bool :=
  matchStrOpt qu.title r.title &&
  matchStrOpt qu.cuisine r.cuisine &&
  matchNumOpt qu.rating r.rating &&
  matchNumOnStr qu.nutrientsCalories r.nutrientsCalories &&
  matchNumOpt qu.total_time r.total_time

/-- GET /api/recipes/search, Variant B2. -/
def searchRecipesB2 (db : List Recipe) (p : ParamsB2) : ResponseB :=
  let page := jsOrInt (parseIntParam p.page) 1
  let limit := jsOrInt (parseIntParam p.limit) 10
  let skip := (page - 1) * limit
  let sortBy := jsOrStr p.sortBy "rating"
  let sortOrder : Int := if p.sortOrder = some "asc" then 1 else -1
  let query := buildQueryB2 p
  { page := page
    limit := limit
    total := countDocuments db (matchQueryB2 query)
    data := findRecipes db (matchQueryB2 query) sortBy sortOrder skip limit }

/-- A raw record of the imported JSON dataset: every field may be absent or
null (both modelled as `none`); JSON numbers are rationals. -/
structure RawRecipe where
  title : Option String := none
  cuisine : Option String := none
  rating : Option ℚ := none
  prep_time : Option ℚ := none
  cook_time : Option ℚ := none
  total_time : Option ℚ := none
  description : Option String := none
  ingredients : Option (List String) := none
  instructions : Option (List String) := none
  nutrients : Option (List (String × String)) := none
  serves : Option String := none
  url : Option String := none
  continent : Option String := none
  countryState : Option String := none
deriving DecidableEq, Repr

/-- The record shape pushed by seed.js after normalisation. -/
structure FormattedRecipe where
  title : String
  cuisine : String
  rating : ℚ
  prep_time : ℚ
  cook_time : ℚ
  total_time : ℚ
  description : String
  ingredients : List String
  instructions : List String
  nutrients : List (String × String)
  serves : String
  url : String
  continent : String
  countryState : String
deriving DecidableEq, Repr

/-- The JavaScript idiom `x || d` on a number-or-null field: null/absent and
0 are falsy. -/
def numOr (x : Option ℚ) (d : ℚ) : ℚ :=
  match x with
  | none => d
  | some v => if v = 0 then d else v

/-- One iteration of seed.js' formatting loop: entries without a truthy title
are skipped (`none`); otherwise every field is defaulted exactly as in the
source, with total_time falling back to the sum of the (defaulted) parts. -/
def formatRecipe (r : RawRecipe) : Option FormattedRecipe :=
  if truthy r.title = false then none
  else some
    { title := r.title.getD ""
      cuisine := jsOrStr r.cuisine "Uncategorized"
      rating := numOr r.rating 0
      prep_time := numOr r.prep_time 0
      cook_time := numOr r.cook_time 0
      total_time := numOr r.total_time (numOr r.prep_time 0 + numOr r.cook_time 0)
      description := jsOrStr r.description ""
      ingredients := r.ingredients.getD []
      instructions := r.instructions.getD []
      nutrients := r.nutrients.getD []
      serves := jsOrStr r.serves ""
      url := jsOrStr r.url ""
      continent := jsOrStr r.continent "Unknown"
      countryState := jsOrStr r.countryState "Unknown" }

/-! ### Projection lemmas for the query builders -/

lemma buildQueryA_qOr (p : ParamsA) :
    (buildQueryA p).qOr = if truthy p.q then some (p.q.getD "") else none := by
  unfold buildQueryA passAExact passAMaxTotalTime passAMinRating passACuisine passAText
  by_cases h1 : truthy p.q = true <;> by_cases h2 : truthy p.cuisine = true <;>
    by_cases h3 : truthy p.rating = true <;> by_cases h4 : truthy p.maxTotalTime = true <;>
    simp [h1, h2, h3, h4]

lemma buildQueryA_cuisine (p : ParamsA) :
    (buildQueryA p).cuisine = if truthy p.cuisine then some (p.cuisine.getD "") else none := by
  unfold buildQueryA passAExact passAMaxTotalTime passAMinRating passACuisine passAText
  by_cases h1 : truthy p.q = true <;> by_cases h2 : truthy p.cuisine = true <;>
    by_cases h3 : truthy p.rating = true <;> by_cases h4 : truthy p.maxTotalTime = true <;>
    simp [h1, h2, h3, h4]

lemma buildQueryA_rating (p : ParamsA) :
    (buildQueryA p).rating =
      applyExact (if truthy p.rating then some (.gte (parseFloat (p.rating.getD ""))) else none)
        p.rating := by
  unfold buildQueryA passAExact passAMaxTotalTime passAMinRating passACuisine passAText
  by_cases h1 : truthy p.q = true <;> by_cases h2 : truthy p.cuisine = true <;>
    by_cases h3 : truthy p.rating = true <;> by_cases h4 : truthy p.maxTotalTime = true <;>
    simp [h1, h2, h3, h4]

lemma buildQueryA_prep_time (p : ParamsA) :
    (buildQueryA p).prep_time = applyExact none p.prep_time := by
  unfold buildQueryA passAExact passAMaxTotalTime passAMinRating passACuisine passAText
  by_cases h1 : truthy p.q = true <;> by_cases h2 : truthy p.cuisine = true <;>
    by_cases h3 : truthy p.rating = true <;> by_cases h4 : truthy p.maxTotalTime = true <;>
    simp [h1, h2, h3, h4]

lemma buildQueryA_cook_time (p : ParamsA) :
    (buildQueryA p).cook_time = applyExact none p.cook_time := by
  unfold buildQueryA passAExact passAMaxTotalTime passAMinRating passACuisine passAText
  by_cases h1 : truthy p.q = true <;> by_cases h2 : truthy p.cuisine = true <;>
    by_cases h3 : truthy p.rating = true <;> by_cases h4 : truthy p.maxTotalTime = true <;>
    simp [h1, h2, h3, h4]

lemma buildQueryA_total_time (p : ParamsA) :
    (buildQueryA p).total_time =
      applyExact
        (if truthy p.maxTotalTime then
          some (.lte (match parseIntParam p.maxTotalTime with
            | none => .nan
            | some v => .num (v : ℚ)))
         else none)
        p.total_time := by
  unfold buildQueryA passAExact passAMaxTotalTime passAMinRating passACuisine passAText
  by_cases h1 : truthy p.q = true <;> by_cases h2 : truthy p.cuisine = true <;>
    by_cases h3 : truthy p.rating = true <;> by_cases h4 : truthy p.maxTotalTime = true <;>
    simp [h1, h2, h3, h4]

lemma passB1MaxCook_rating (p : ParamsB1) (q : QueryB1) :
    (passB1MaxCook p q).rating = q.rating := by
  unfold passB1MaxCook
  split
  · split
    · split <;> rfl
    · rfl
  · rfl

lemma passB1MaxPrep_rating (p : ParamsB1) (q : QueryB1) :
    (passB1MaxPrep p q).rating = q.rating := by
  unfold passB1MaxPrep
  split
  · split
    · split <;> rfl
    · rfl
  · rfl

lemma passB1MaxCook_prep_time (p : ParamsB1) (q : QueryB1) :
    (passB1MaxCook p q).prep_time = q.prep_time := by
  unfold passB1MaxCook
  split
  · split
    · split <;> rfl
    · rfl
  · rfl

lemma passB1MinRating_prep_time (p : ParamsB1) (q : QueryB1) :
    (passB1MinRating p q).prep_time = q.prep_time := by
  unfold passB1MinRating
  split
  · split
    · split <;> rfl
    · rfl
  · rfl

lemma passB1MinRating_cook_time (p : ParamsB1) (q : QueryB1) :
    (passB1MinRating p q).cook_time = q.cook_time := by
  unfold passB1MinRating
  split
  · split
    · split <;> rfl
    · rfl
  · rfl

lemma passB1MaxPrep_cook_time (p : ParamsB1) (q : QueryB1) :
    (passB1MaxPrep p q).cook_time = q.cook_time := by
  unfold passB1MaxPrep
  split
  · split
    · split <;> rfl
    · rfl
  · rfl

lemma passB1_start_fields (p : ParamsB1) :
    (passB1Cuisine p (passB1Text p {})).rating = none ∧
    (passB1Cuisine p (passB1Text p {})).prep_time = none ∧
    (passB1Cuisine p (passB1Text p {})).cook_time = none := by
  unfold passB1Cuisine passB1Text
  split <;> split <;> exact ⟨rfl, rfl, rfl⟩

lemma buildQueryB1_rating (p : ParamsB1) :
    (buildQueryB1 p).rating =
      if truthy p.minRating then
        match parseFloat (p.minRating.getD "") with
        | .num v => if 1 ≤ v ∧ v ≤ 5 then some (.gte (.num v)) else none
        | .nan => none
      else none := by
  unfold buildQueryB1
  rw [passB1MaxCook_rating, passB1MaxPrep_rating]
  have h0 := (passB1_start_fields p).1
  unfold passB1MinRating
  by_cases h : truthy p.minRating = true
  · simp only [h, if_true]
    cases hf : parseFloat (p.minRating.getD "") with
    | nan => simpa using h0
    | num v =>
      by_cases hv : 1 ≤ v ∧ v ≤ 5
      · simp [hv]
      · simpa [hv] using h0
  · simp only [h]
    simpa using h0

lemma buildQueryB1_prep_time (p : ParamsB1) :
    (buildQueryB1 p).prep_time =
      if truthy p.maxPrepTime then
        match parseIntParam p.maxPrepTime with
        | some v => if 0 < v then some (.lte (.num (v : ℚ))) else none
        | none => none
      else none := by
  unfold buildQueryB1
  rw [passB1MaxCook_prep_time]
  have h0 : (passB1MinRating p (passB1Cuisine p (passB1Text p {}))).prep_time = none := by
    rw [passB1MinRating_prep_time]; exact (passB1_start_fields p).2.1
  unfold passB1MaxPrep
  by_cases h : truthy p.maxPrepTime = true
  · simp only [h, if_true]
    cases hf : parseIntParam p.maxPrepTime with
    | none => simpa using h0
    | some v =>
      by_cases hv : 0 < v
      · simp [hv]
      · simpa [hv] using h0
  · simp only [h]
    simpa using h0

lemma buildQueryB1_cook_time (p : ParamsB1) :
    (buildQueryB1 p).cook_time =
      if truthy p.maxCookTime then
        match parseIntParam p.maxCookTime with
        | some v => if 0 < v then some (.lte (.num (v : ℚ))) else none
        | none => none
      else none := by
  unfold buildQueryB1
  have h0 : (passB1MaxPrep p (passB1MinRating p (passB1Cuisine p (passB1Text p {})))).cook_time
      = none := by
    rw [passB1MaxPrep_cook_time, passB1MinRating_cook_time]
    exact (passB1_start_fields p).2.2
  unfold passB1MaxCook
  by_cases h : truthy p.maxCookTime = true
  · simp only [h, if_true]
    cases hf : parseIntParam p.maxCookTime with
    | none => simpa using h0
    | some v =>
      by_cases hv : 0 < v
      · simp [hv]
      · simpa [hv] using h0
  · simp only [h]
    simpa using h0

lemma passB2Time_rating (p : ParamsB2) (q : QueryB2) :
    (passB2Time p q).rating = q.rating := by
  unfold passB2Time
  split
  · split <;> rfl
  · rfl

lemma passB2Calories_rating (p : ParamsB2) (q : QueryB2) :
    (passB2Calories p q).rating = q.rating := by
  unfold passB2Calories
  split
  · split <;> rfl
  · rfl

lemma passB2Time_calories (p : ParamsB2) (q : QueryB2) :
    (passB2Time p q).nutrientsCalories = q.nutrientsCalories := by
  unfold passB2Time
  split
  · split <;> rfl
  · rfl

lemma passB2Rating_calories (p : ParamsB2) (q : QueryB2) :
    (passB2Rating p q).nutrientsCalories = q.nutrientsCalories := by
  unfold passB2Rating
  split
  · split <;> rfl
  · rfl

lemma passB2Calories_total_time (p : ParamsB2) (q : QueryB2) :
    (passB2Calories p q).total_time = q.total_time := by
  unfold passB2Calories
  split
  · split <;> rfl
  · rfl

lemma passB2Rating_total_time (p : ParamsB2) (q : QueryB2) :
    (passB2Rating p q).total_time = q.total_time := by
  unfold passB2Rating
  split
  · split <;> rfl
  · rfl

lemma passB2_start_fields (p : ParamsB2) :
    (passB2Cuisine p (passB2Title p {})).rating = none ∧
    (passB2Cuisine p (passB2Title p {})).nutrientsCalories = none ∧
    (passB2Cuisine p (passB2Title p {})).total_time = none := by
  unfold passB2Cuisine passB2Title
  split <;> split <;> exact ⟨rfl, rfl, rfl⟩

lemma buildQueryB2_rating (p : ParamsB2) :
    (buildQueryB2 p).rating =
      if truthy p.rating then
        buildOperatorQuery (p.rating.getD "") (jsOrStr p.ratingOp "gte")
      else none := by
  unfold buildQueryB2
  rw [passB2Time_rating, passB2Calories_rating]
  have h0 := (passB2_start_fields p).1
  unfold passB2Rating
  by_cases h : truthy p.rating = true
  · simp only [h, if_true]
    cases hb : buildOperatorQuery (p.rating.getD "") (jsOrStr p.ratingOp "gte") with
    | none => simpa using h0
    | some f => rfl
  · simp only [h]
    simpa using h0

lemma buildQueryB2_calories (p : ParamsB2) :
    (buildQueryB2 p).nutrientsCalories =
      if truthy p.calories then
        buildOperatorQuery (p.calories.getD "") (jsOrStr p.caloriesOp "gte")
      else none := by
  unfold buildQueryB2
  rw [passB2Time_calories]
  have h0 : (passB2Rating p (passB2Cuisine p (passB2Title p {}))).nutrientsCalories = none := by
    rw [passB2Rating_calories]; exact (passB2_start_fields p).2.1
  unfold passB2Calories
  by_cases h : truthy p.calories = true
  · simp only [h, if_true]
    cases hb : buildOperatorQuery (p.calories.getD "") (jsOrStr p.caloriesOp "gte") with
    | none => simpa using h0
    | some f => rfl
  · simp only [h]
    simpa using h0

lemma buildQueryB2_total_time (p : ParamsB2) :
    (buildQueryB2 p).total_time =
      if truthy p.total_time then
        buildOperatorQuery (p.total_time.getD "") (jsOrStr p.timeOp "lte")
      else none := by
  unfold buildQueryB2
  have h0 : (passB2Calories p (passB2Rating p (passB2Cuisine p (passB2Title p {})))).total_time
      = none := by
    rw [passB2Calories_total_time, passB2Rating_total_time]
    exact (passB2_start_fields p).2.2
  unfold passB2Time
  by_cases h : truthy p.total_time = true
  · simp only [h, if_true]
    cases hb : buildOperatorQuery (p.total_time.getD "") (jsOrStr p.timeOp "lte") with
    | none => simpa using h0
    | some f => rfl
  · simp only [h]
    simpa using h0

/-! ### Claim theorems -/

/-- C1: for every filter produced by the query translator - in the list
endpoint and in both search-endpoint variants - the total field of the
response envelope equals the count of all records matching that filter,
independent of the page and limit parameters supplied. -/
theorem claim_C1_total_is_full_match_count :
    ∀ (db : List Recipe) (pA : ParamsA) (pB1 : ParamsB1) (pB2 : ParamsB2)
      (pg lim : Option String),
      (getRecipes db { pA with page := pg, limit := lim }).total
          = countDocuments db (matchQueryA (buildQueryA pA)) ∧
      (searchRecipesB1 db { pB1 with page := pg, limit := lim }).total
          = countDocuments db (matchQueryB1 (buildQueryB1 pB1)) ∧
      (searchRecipesB2 db { pB2 with page := pg, limit := lim }).total
          = countDocuments db (matchQueryB2 (buildQueryB2 pB2)) :=
  fun _ _ _ _ _ _ => ⟨rfl, rfl, rfl⟩

/-- C2, counterexample: the claim says a page of 0 is passed through
unchanged and yields a negative offset, but `parseInt(page) || 1` treats 0 as
falsy, so page "0" with limit "5" produces page 1 and offset 0, not page 0 and
offset -5. -/
theorem claim_C2_counterexample :
    (getRecipes [] { page := some "0", limit := some "5" }).page = 1 ∧
    ((getRecipes [] { page := some "0", limit := some "5" }).page - 1)
        * (getRecipes [] { page := some "0", limit := some "5" }).limit = 0 ∧
    (getRecipes [] { page := some "0", limit := some "5" }).page ≠ 0 := by
  decide

/-- C2 (amended): page = parseInt(page) or 1 and limit = parseInt(limit) or
10 under JavaScript or-semantics, where NaN and 0 both fall back to the
default (so a page of 0 becomes page 1 with offset 0); strictly negative
parsed pages are passed through unchanged and give a negative offset when the
limit is positive; and for page ≥ 1 and limit ≥ 1 the data slice skips
exactly offset = (page-1)*limit records of the full sorted filtered match set
and has length at most limit.  Stated for the list endpoint and the Variant
B2 search endpoint. -/
theorem claim_C2_pagination_contract (db : List Recipe) (p : ParamsA) (p2 : ParamsB2) :
    (getRecipes db p).page = jsOrInt (parseIntParam p.page) 1 ∧
    (getRecipes db p).limit = jsOrInt (parseIntParam p.limit) 10 ∧
    (parseIntParam p.page = some 0 → (getRecipes db p).page = 1) ∧
    (∀ n : Int, n < 0 → parseIntParam p.page = some n → (getRecipes db p).page = n) ∧
    ((getRecipes db p).page < 0 → 0 < (getRecipes db p).limit →
        ((getRecipes db p).page - 1) * (getRecipes db p).limit < 0) ∧
    (1 ≤ (getRecipes db p).page → 1 ≤ (getRecipes db p).limit →
        (getRecipes db p).data.length ≤ (getRecipes db p).limit.toNat ∧
        (getRecipes db p).data =
          (((db.filter (matchQueryA (buildQueryA p))).mergeSort
              (sortLe (jsOrStr p.sortBy "rating")
                (if p.sortOrder = some "asc" then 1 else -1))).drop
            (((getRecipes db p).page - 1) * (getRecipes db p).limit).toNat).take
            (getRecipes db p).limit.toNat) ∧
    (searchRecipesB2 db p2).page = jsOrInt (parseIntParam p2.page) 1 ∧
    (searchRecipesB2 db p2).limit = jsOrInt (parseIntParam p2.limit) 10 ∧
    (1 ≤ (searchRecipesB2 db p2).page → 1 ≤ (searchRecipesB2 db p2).limit →
        (searchRecipesB2 db p2).data.length ≤ (searchRecipesB2 db p2).limit.toNat ∧
        (searchRecipesB2 db p2).data =
          (((db.filter (matchQueryB2 (buildQueryB2 p2))).mergeSort
              (sortLe (jsOrStr p2.sortBy "rating")
                (if p2.sortOrder = some "asc" then 1 else -1))).drop
            (((searchRecipesB2 db p2).page - 1) * (searchRecipesB2 db p2).limit).toNat).take
            (searchRecipesB2 db p2).limit.toNat) := by
  refine ⟨rfl, rfl, ?_, ?_, ?_, ?_, rfl, rfl, ?_⟩
  · intro h
    show jsOrInt (parseIntParam p.page) 1 = 1
    rw [h]; rfl
  · intro n hn h
    show jsOrInt (parseIntParam p.page) 1 = n
    rw [h]
    show (if n = 0 then (1 : Int) else n) = n
    rw [if_neg (by omega)]
  · intro h1 h2
    exact mul_neg_of_neg_of_pos (by omega) h2
  · intro h1 h2
    exact ⟨List.length_take_le _ _, rfl⟩
  · intro h1 h2
    exact ⟨List.length_take_le _ _, rfl⟩

/-- A small concrete collection used by witnesses. -/
def dbW : List Recipe :=
  [{ title := "Pasta", cuisine := "Italian", rating := some 3, total_time := some 30 },
   { title := "Curry", cuisine := "Indian", rating := some 5, total_time := some 50 },
   { title := "Stew", cuisine := "Irish", rating := some 1, total_time := some 90 }]

/-- Witness for C2: page 2 with limit 1 on a 3-record collection satisfies
the slice bound, and a negative page string is passed through unchanged. -/
theorem claim_C2_pagination_contract_witness :
    (getRecipes dbW { page := some "2", limit := some "1" }).data.length
        ≤ (getRecipes dbW { page := some "2", limit := some "1" }).limit.toNat ∧
    (getRecipes [] { page := some "-2" }).page = -2 := by
  constructor
  · exact ((claim_C2_pagination_contract dbW { page := some "2", limit := some "1" }
      {}).2.2.2.2.2.1 (by decide) (by decide)).1
  · exact (claim_C2_pagination_contract [] { page := some "-2" } {}).2.2.2.1
      (-2) (by decide) (by decide)

/-- C3: in the list endpoint, when the rating parameter carries a parsable
numeric value, the threshold pass and the exact-equality pass write the same
filter key and the exact-equality value wins, so the final filter matches
only records whose rating equals the parsed value exactly. -/
theorem claim_C3_rating_exact_clobbers_threshold (p : ParamsA) (s : String) (v : ℚ)
    (hs : p.rating = some s) (hv : handleNumberFilter s = some v) :
    (buildQueryA p).rating = some (.eq (.num v)) ∧
    ∀ r : Recipe, matchQueryA (buildQueryA p) r = true → r.rating = some v := by
  have hq : (buildQueryA p).rating = some (.eq (.num v)) := by
    rw [buildQueryA_rating, hs]
    simp [applyExact, hv]
  refine ⟨hq, ?_⟩
  intro r hr
  unfold matchQueryA at hr
  simp only [Bool.and_eq_true] at hr
  have hc := hr.1.1.1.2
  rw [hq] at hc
  simp only [matchNumOpt, matchNum, decide_eq_true_eq] at hc
  exact hc

/-- Witness for C3 at rating = "3". -/
theorem claim_C3_witness :
    (buildQueryA { rating := some "3" }).rating = some (.eq (.num 3)) :=
  (claim_C3_rating_exact_clobbers_threshold { rating := some "3" } "3" 3 rfl (by decide)).1

/-- C4, counterexample: with rating = "null" the claim predicts no filter at
all on the rating field, but the minimum-rating pass still runs (the string
"null" is truthy) and leaves a rating ≥ NaN threshold filter in place; only
the exact-equality pass drops the value. -/
theorem claim_C4_counterexample :
    (buildQueryA { rating := some "null" }).rating = some (.gte .nan) ∧
    (buildQueryA { rating := some "null" }).rating ≠ none := by
  decide

/-- C4 (amended): the strings "null" and "undefined" are coerced to null and
dropped by the exact-equality numeric pass, so for prep_time and cook_time
(and for total_time when maxTotalTime is not supplied) no filter at all is
applied on the field; but for rating the earlier threshold pass still fires
on the truthy string and leaves a rating ≥ NaN filter. -/
theorem claim_C4_null_undefined_handling (p : ParamsA) (s : String)
    (hs : s = "null" ∨ s = "undefined") :
    (p.prep_time = some s → (buildQueryA p).prep_time = none) ∧
    (p.cook_time = some s → (buildQueryA p).cook_time = none) ∧
    (p.total_time = some s → truthy p.maxTotalTime = false →
        (buildQueryA p).total_time = none) ∧
    (p.rating = some s → (buildQueryA p).rating = some (.gte .nan)) := by
  have hnf : handleNumberFilter s = none := by
    rcases hs with h | h <;> subst h <;> rfl
  have htr : truthy (some s) = true := by
    rcases hs with h | h <;> subst h <;> rfl
  have hpf : parseFloat s = .nan := by
    rcases hs with h | h <;> subst h <;> rfl
  have hae : ∀ cur, applyExact cur (some s) = cur := by
    intro cur
    simp [applyExact, hnf]
  refine ⟨?_, ?_, ?_, ?_⟩
  · intro h
    rw [buildQueryA_prep_time, h, hae]
  · intro h
    rw [buildQueryA_cook_time, h, hae]
  · intro h hm
    rw [buildQueryA_total_time, h, hae, hm]
    simp
  · intro h
    rw [buildQueryA_rating, h, hae]
    simp only [Option.getD_some, htr, if_true, hpf]

/-- Parameter map with all four numeric parameters set to "null". -/
def pAllNull : ParamsA :=
  { rating := some "null", prep_time := some "null",
    cook_time := some "null", total_time := some "null" }

/-- Witness for C4: all four numeric parameters set to "null". -/
theorem claim_C4_witness :
    (buildQueryA pAllNull).prep_time = none ∧
    (buildQueryA pAllNull).cook_time = none ∧
    (buildQueryA pAllNull).total_time = none ∧
    (buildQueryA pAllNull).rating = some (.gte .nan) := by
  have h := claim_C4_null_undefined_handling pAllNull "null" (Or.inl rfl)
  exact ⟨h.1 rfl, h.2.1 rfl, h.2.2.1 rfl rfl, h.2.2.2 rfl⟩

/-- Case analysis of buildOperatorQuery on a parsable value: gte and lte and
eq are selected by name, and any other operator string falls to the gte
default. -/
lemma buildOperatorQuery_cases (s : String) (v : ℚ) (op : String)
    (hv : parseFloat s = .num v) :
    (op ≠ "lte" → op ≠ "eq" → buildOperatorQuery s op = some (.gte (.num v))) ∧
    (op = "lte" → buildOperatorQuery s op = some (.lte (.num v))) ∧
    (op = "eq" → buildOperatorQuery s op = some (.eq (.num v))) := by
  unfold buildOperatorQuery
  rw [hv]
  refine ⟨?_, ?_, ?_⟩
  · intro h1 h2
    by_cases hg : op = "gte"
    · subst hg; rfl
    · simp [hg, h1, h2]
  · intro h1; subst h1; rfl
  · intro h1; subst h1; rfl

/-- A string that parses to a number is nonempty, hence truthy. -/
lemma truthy_of_parse (s : String) (v : ℚ) (hv : parseFloat s = .num v) :
    truthy (some s) = true := by
  by_cases h : s = ""
  · subst h
    have h2 : JsNum.nan = JsNum.num v := hv
    exact JsNum.noConfusion h2
  · simp [truthy, h]

/-- C5: in the Variant B2 search endpoint, the companion *Op parameter picks
gte, lte or eq for each of rating, calories (targeting nutrients.calories)
and total_time; an omitted or unrecognized op defaults to gte for rating and
calories, an omitted timeOp defaults to lte for total_time, and an unparsable
numeric value makes the whole filter be skipped. -/
theorem claim_C5_b2_operator_mechanism (p : ParamsB2) (s : String) (v : ℚ) :
    (p.rating = some s → parseFloat s = .num v →
      (jsOrStr p.ratingOp "gte" ≠ "lte" → jsOrStr p.ratingOp "gte" ≠ "eq" →
        (buildQueryB2 p).rating = some (.gte (.num v))) ∧
      (jsOrStr p.ratingOp "gte" = "lte" → (buildQueryB2 p).rating = some (.lte (.num v))) ∧
      (jsOrStr p.ratingOp "gte" = "eq" → (buildQueryB2 p).rating = some (.eq (.num v)))) ∧
    (p.rating = some s → parseFloat s = .nan → (buildQueryB2 p).rating = none) ∧
    (p.calories = some s → parseFloat s = .num v →
      (jsOrStr p.caloriesOp "gte" ≠ "lte" → jsOrStr p.caloriesOp "gte" ≠ "eq" →
        (buildQueryB2 p).nutrientsCalories = some (.gte (.num v))) ∧
      (jsOrStr p.caloriesOp "gte" = "lte" →
        (buildQueryB2 p).nutrientsCalories = some (.lte (.num v))) ∧
      (jsOrStr p.caloriesOp "gte" = "eq" →
        (buildQueryB2 p).nutrientsCalories = some (.eq (.num v)))) ∧
    (p.calories = some s → parseFloat s = .nan → (buildQueryB2 p).nutrientsCalories = none) ∧
    (p.total_time = some s → parseFloat s = .num v →
      (p.timeOp = none ∨ p.timeOp = some "" →
        (buildQueryB2 p).total_time = some (.lte (.num v))) ∧
      (jsOrStr p.timeOp "lte" = "gte" → (buildQueryB2 p).total_time = some (.gte (.num v))) ∧
      (jsOrStr p.timeOp "lte" = "eq" → (buildQueryB2 p).total_time = some (.eq (.num v)))) ∧
    (p.total_time = some s → parseFloat s = .nan → (buildQueryB2 p).total_time = none) := by
  refine ⟨?_, ?_, ?_, ?_, ?_, ?_⟩
  · intro hr hv
    have htr := truthy_of_parse s v hv
    have hops := buildOperatorQuery_cases s v (jsOrStr p.ratingOp "gte") hv
    rw [buildQueryB2_rating, hr]
    simp only [Option.getD_some, htr, if_true]
    exact hops
  · intro hr hv
    rw [buildQueryB2_rating, hr]
    by_cases h : s = ""
    · subst h; rfl
    · have ht : truthy (some s) = true := by simp [truthy, h]
      simp only [Option.getD_some, ht, if_true]
      unfold buildOperatorQuery
      rw [hv]
  · intro hr hv
    have htr := truthy_of_parse s v hv
    have hops := buildOperatorQuery_cases s v (jsOrStr p.caloriesOp "gte") hv
    rw [buildQueryB2_calories, hr]
    simp only [Option.getD_some, htr, if_true]
    exact hops
  · intro hr hv
    rw [buildQueryB2_calories, hr]
    by_cases h : s = ""
    · subst h; rfl
    · have ht : truthy (some s) = true := by simp [truthy, h]
      simp only [Option.getD_some, ht, if_true]
      unfold buildOperatorQuery
      rw [hv]
  · intro hr hv
    have htr := truthy_of_parse s v hv
    have hops := buildOperatorQuery_cases s v (jsOrStr p.timeOp "lte") hv
    rw [buildQueryB2_total_time, hr]
    simp only [Option.getD_some, htr, if_true]
    refine ⟨?_, ?_, ?_⟩
    · intro h
      have hlte : jsOrStr p.timeOp "lte" = "lte" := by
        rcases h with h | h <;> rw [h] <;> rfl
      exact hops.2.1 hlte
    · intro h
      exact hops.1 (by rw [h]; decide) (by rw [h]; decide)
    · intro h
      exact hops.2.2 h
  · intro hr hv
    rw [buildQueryB2_total_time, hr]
    by_cases h : s = ""
    · subst h; rfl
    · have ht : truthy (some s) = true := by simp [truthy, h]
      simp only [Option.getD_some, ht, if_true]
      unfold buildOperatorQuery
      rw [hv]

/-- Witness for C5: rating with no op defaults to gte, total_time with no op
defaults to lte, and an unparsable calories value is skipped. -/
theorem claim_C5_witness :
    (buildQueryB2 { rating := some "4" }).rating = some (.gte (.num 4)) ∧
    (buildQueryB2 { total_time := some "60" }).total_time = some (.lte (.num 60)) ∧
    (buildQueryB2 { calories := some "abc" }).nutrientsCalories = none := by
  refine ⟨?_, ?_, ?_⟩
  · exact ((claim_C5_b2_operator_mechanism { rating := some "4" } "4" 4).1 rfl
      (by decide)).1 (by decide) (by decide)
  · exact ((claim_C5_b2_operator_mechanism { total_time := some "60" } "60" 60).2.2.2.2.1 rfl
      (by decide)).1 (Or.inl rfl)
  · exact (claim_C5_b2_operator_mechanism { calories := some "abc" } "abc" 0).2.2.2.1 rfl
      (by decide)

/-- C6: in the Variant B1 search endpoint, the minRating ≥-filter is applied
exactly when the parsed value lies in [1,5] (out-of-range and unparsable
values are silently ignored), and the maxPrepTime / maxCookTime ≤-filters are
applied exactly when the parsed value is strictly positive. -/
theorem claim_C6_b1_range_guards (p : ParamsB1) (v : ℚ) (n : Int) :
    (truthy p.minRating = false → (buildQueryB1 p).rating = none) ∧
    (∀ s, p.minRating = some s → parseFloat s = .num v → 1 ≤ v → v ≤ 5 →
        (buildQueryB1 p).rating = some (.gte (.num v))) ∧
    (∀ s, p.minRating = some s → parseFloat s = .num v → ¬ (1 ≤ v ∧ v ≤ 5) →
        (buildQueryB1 p).rating = none) ∧
    (∀ s, p.minRating = some s → parseFloat s = .nan → (buildQueryB1 p).rating = none) ∧
    (truthy p.maxPrepTime = false → (buildQueryB1 p).prep_time = none) ∧
    (∀ s, p.maxPrepTime = some s → parseIntJs s = some n → 0 < n →
        (buildQueryB1 p).prep_time = some (.lte (.num (n : ℚ)))) ∧
    (∀ s, p.maxPrepTime = some s → parseIntJs s = some n → n ≤ 0 →
        (buildQueryB1 p).prep_time = none) ∧
    (∀ s, p.maxPrepTime = some s → parseIntJs s = none → (buildQueryB1 p).prep_time = none) ∧
    (truthy p.maxCookTime = false → (buildQueryB1 p).cook_time = none) ∧
    (∀ s, p.maxCookTime = some s → parseIntJs s = some n → 0 < n →
        (buildQueryB1 p).cook_time = some (.lte (.num (n : ℚ)))) ∧
    (∀ s, p.maxCookTime = some s → parseIntJs s = some n → n ≤ 0 →
        (buildQueryB1 p).cook_time = none) ∧
    (∀ s, p.maxCookTime = some s → parseIntJs s = none → (buildQueryB1 p).cook_time = none) := by
  refine ⟨?_, ?_, ?_, ?_, ?_, ?_, ?_, ?_, ?_, ?_, ?_, ?_⟩
  · intro h
    rw [buildQueryB1_rating, h]
    rfl
  · intro s hs hv h1 h5
    have htr := truthy_of_parse s v hv
    rw [buildQueryB1_rating, hs]
    simp only [Option.getD_some, htr, if_true, hv]
    simp [h1, h5]
  · intro s hs hv hrange
    have htr := truthy_of_parse s v hv
    rw [buildQueryB1_rating, hs]
    simp only [Option.getD_some, htr, if_true, hv]
    simp [hrange]
  · intro s hs hv
    rw [buildQueryB1_rating, hs]
    by_cases h : s = ""
    · subst h; rfl
    · have ht : truthy (some s) = true := by simp [truthy, h]
      simp only [Option.getD_some, ht, if_true, hv]
  · intro h
    rw [buildQueryB1_prep_time, h]
    rfl
  · intro s hs hn h0
    have h' : s ≠ "" := by
      intro h2
      subst h2
      exact Option.noConfusion (show (none : Option Int) = some n from hn)
    have ht : truthy (some s) = true := by simp [truthy, h']
    rw [buildQueryB1_prep_time, hs]
    simp only [parseIntParam, Option.getD_some, ht, if_true, hn]
    simp [h0]
  · intro s hs hn h0
    rw [buildQueryB1_prep_time, hs]
    by_cases h : s = ""
    · subst h; rfl
    · have ht : truthy (some s) = true := by simp [truthy, h]
      simp only [parseIntParam, Option.getD_some, ht, if_true, hn]
      simp
      omega
  · intro s hs hn
    rw [buildQueryB1_prep_time, hs]
    by_cases h : s = ""
    · subst h; rfl
    · have ht : truthy (some s) = true := by simp [truthy, h]
      simp only [parseIntParam, Option.getD_some, ht, if_true, hn]
  · intro h
    rw [buildQueryB1_cook_time, h]
    rfl
  · intro s hs hn h0
    have h' : s ≠ "" := by
      intro h2
      subst h2
      exact Option.noConfusion (show (none : Option Int) = some n from hn)
    have ht : truthy (some s) = true := by simp [truthy, h']
    rw [buildQueryB1_cook_time, hs]
    simp only [parseIntParam, Option.getD_some, ht, if_true, hn]
    simp [h0]
  · intro s hs hn h0
    rw [buildQueryB1_cook_time, hs]
    by_cases h : s = ""
    · subst h; rfl
    · have ht : truthy (some s) = true := by simp [truthy, h]
      simp only [parseIntParam, Option.getD_some, ht, if_true, hn]
      simp
      omega
  · intro s hs hn
    rw [buildQueryB1_cook_time, hs]
    by_cases h : s = ""
    · subst h; rfl
    · have ht : truthy (some s) = true := by simp [truthy, h]
      simp only [parseIntParam, Option.getD_some, ht, if_true, hn]

/-- Witness for C6: minRating=6 applies no rating filter; maxPrepTime=0
applies no prep_time filter; maxCookTime=30 applies cook_time ≤ 30. -/
theorem claim_C6_witness :
    (buildQueryB1 { minRating := some "6" }).rating = none ∧
    (buildQueryB1 { maxPrepTime := some "0" }).prep_time = none ∧
    (buildQueryB1 { maxCookTime := some "30" }).cook_time = some (.lte (.num 30)) := by
  refine ⟨?_, ?_, ?_⟩
  · exact (claim_C6_b1_range_guards { minRating := some "6" } 6 0).2.2.1 "6" rfl
      (by decide) (by decide)
  · exact (claim_C6_b1_range_guards { maxPrepTime := some "0" } 0 0).2.2.2.2.2.2.1 "0" rfl
      (by decide) (by decide)
  · exact (claim_C6_b1_range_guards { maxCookTime := some "30" } 0 30).2.2.2.2.2.2.2.2.2.1 "30"
      rfl (by decide) (by decide)

/-- C7: in every endpoint variant the effective sort direction is descending
(-1) unless sortOrder is exactly the string "asc" - any other value yields
descending - and the sort field falls back to "rating" when sortBy is
absent. -/
theorem claim_C7_sort_defaults (db : List Recipe) (pA : ParamsA) (pB1 : ParamsB1)
    (pB2 : ParamsB2) :
    (pA.sortOrder ≠ some "asc" →
      (getRecipes db pA).data =
        findRecipes db (matchQueryA (buildQueryA pA)) (jsOrStr pA.sortBy "rating") (-1)
          ((jsOrInt (parseIntParam pA.page) 1 - 1) * jsOrInt (parseIntParam pA.limit) 10)
          (jsOrInt (parseIntParam pA.limit) 10)) ∧
    (pB1.sortOrder ≠ some "asc" →
      (searchRecipesB1 db pB1).data =
        findRecipes db (matchQueryB1 (buildQueryB1 pB1)) (jsOrStr pB1.sortBy "rating") (-1)
          ((jsOrInt (parseIntParam pB1.page) 1 - 1) * jsOrInt (parseIntParam pB1.limit) 10)
          (jsOrInt (parseIntParam pB1.limit) 10)) ∧
    (pB2.sortOrder ≠ some "asc" →
      (searchRecipesB2 db pB2).data =
        findRecipes db (matchQueryB2 (buildQueryB2 pB2)) (jsOrStr pB2.sortBy "rating") (-1)
          ((jsOrInt (parseIntParam pB2.page) 1 - 1) * jsOrInt (parseIntParam pB2.limit) 10)
          (jsOrInt (parseIntParam pB2.limit) 10)) ∧
    (pA.sortBy = none →
      (getRecipes db pA).data =
        findRecipes db (matchQueryA (buildQueryA pA)) "rating"
          (if pA.sortOrder = some "asc" then 1 else -1)
          ((jsOrInt (parseIntParam pA.page) 1 - 1) * jsOrInt (parseIntParam pA.limit) 10)
          (jsOrInt (parseIntParam pA.limit) 10)) ∧
    (pB1.sortBy = none →
      (searchRecipesB1 db pB1).data =
        findRecipes db (matchQueryB1 (buildQueryB1 pB1)) "rating"
          (if pB1.sortOrder = some "asc" then 1 else -1)
          ((jsOrInt (parseIntParam pB1.page) 1 - 1) * jsOrInt (parseIntParam pB1.limit) 10)
          (jsOrInt (parseIntParam pB1.limit) 10)) ∧
    (pB2.sortBy = none →
      (searchRecipesB2 db pB2).data =
        findRecipes db (matchQueryB2 (buildQueryB2 pB2)) "rating"
          (if pB2.sortOrder = some "asc" then 1 else -1)
          ((jsOrInt (parseIntParam pB2.page) 1 - 1) * jsOrInt (parseIntParam pB2.limit) 10)
          (jsOrInt (parseIntParam pB2.limit) 10)) := by
  refine ⟨?_, ?_, ?_, ?_, ?_, ?_⟩
  · intro h
    show findRecipes db (matchQueryA (buildQueryA pA)) (jsOrStr pA.sortBy "rating")
      (if pA.sortOrder = some "asc" then 1 else -1)
      ((jsOrInt (parseIntParam pA.page) 1 - 1) * jsOrInt (parseIntParam pA.limit) 10)
      (jsOrInt (parseIntParam pA.limit) 10) = _
    rw [if_neg h]
  · intro h
    show findRecipes db (matchQueryB1 (buildQueryB1 pB1)) (jsOrStr pB1.sortBy "rating")
      (if pB1.sortOrder = some "asc" then 1 else -1)
      ((jsOrInt (parseIntParam pB1.page) 1 - 1) * jsOrInt (parseIntParam pB1.limit) 10)
      (jsOrInt (parseIntParam pB1.limit) 10) = _
    rw [if_neg h]
  · intro h
    show findRecipes db (matchQueryB2 (buildQueryB2 pB2)) (jsOrStr pB2.sortBy "rating")
      (if pB2.sortOrder = some "asc" then 1 else -1)
      ((jsOrInt (parseIntParam pB2.page) 1 - 1) * jsOrInt (parseIntParam pB2.limit) 10)
      (jsOrInt (parseIntParam pB2.limit) 10) = _
    rw [if_neg h]
  · intro h
    show findRecipes db (matchQueryA (buildQueryA pA)) (jsOrStr pA.sortBy "rating")
      (if pA.sortOrder = some "asc" then 1 else -1)
      ((jsOrInt (parseIntParam pA.page) 1 - 1) * jsOrInt (parseIntParam pA.limit) 10)
      (jsOrInt (parseIntParam pA.limit) 10) = _
    rw [h]
    rfl
  · intro h
    show findRecipes db (matchQueryB1 (buildQueryB1 pB1)) (jsOrStr pB1.sortBy "rating")
      (if pB1.sortOrder = some "asc" then 1 else -1)
      ((jsOrInt (parseIntParam pB1.page) 1 - 1) * jsOrInt (parseIntParam pB1.limit) 10)
      (jsOrInt (parseIntParam pB1.limit) 10) = _
    rw [h]
    rfl
  · intro h
    show findRecipes db (matchQueryB2 (buildQueryB2 pB2)) (jsOrStr pB2.sortBy "rating")
      (if pB2.sortOrder = some "asc" then 1 else -1)
      ((jsOrInt (parseIntParam pB2.page) 1 - 1) * jsOrInt (parseIntParam pB2.limit) 10)
      (jsOrInt (parseIntParam pB2.limit) 10) = _
    rw [h]
    rfl

/-- Witness for C7: a differently-cased "ASC" still sorts descending, and an
absent sortBy uses the rating field. -/
theorem claim_C7_witness :
    (getRecipes dbW { sortOrder := some "ASC" }).data =
      findRecipes dbW (matchQueryA (buildQueryA { sortOrder := some "ASC" }))
        (jsOrStr none "rating") (-1) 0 10 ∧
    (searchRecipesB2 dbW {}).data =
      findRecipes dbW (matchQueryB2 (buildQueryB2 {})) "rating"
        (if (none : Option String) = some "asc" then 1 else -1) 0 10 := by
  constructor
  · exact (claim_C7_sort_defaults dbW { sortOrder := some "ASC" } {} {}).1 (by decide)
  · exact (claim_C7_sort_defaults dbW {} {} {}).2.2.2.2.2 rfl

/-- C8: a recipe imported with only title and cuisine present is stored with
rating 0, prep_time 0, cook_time 0, total_time = prep_time + cook_time = 0,
and empty ingredients and instructions; in general an absent total_time is
computed as the sum of the defaulted prep_time and cook_time. -/
theorem claim_C8_seed_minimal_defaults (r : RawRecipe) (t : String)
    (ht : r.title = some t) (ht2 : t ≠ "")
    (h1 : r.rating = none) (h2 : r.prep_time = none) (h3 : r.cook_time = none)
    (h4 : r.total_time = none) (h5 : r.ingredients = none) (h6 : r.instructions = none) :
    (∃ f, formatRecipe r = some f ∧ f.rating = 0 ∧ f.prep_time = 0 ∧ f.cook_time = 0 ∧
        f.total_time = 0 ∧ f.total_time = f.prep_time + f.cook_time ∧
        f.ingredients = [] ∧ f.instructions = []) ∧
    (∀ r2 : RawRecipe, ∀ f2, r2.total_time = none → formatRecipe r2 = some f2 →
        f2.total_time = f2.prep_time + f2.cook_time) := by
  constructor
  · have htr : truthy r.title = true := by rw [ht]; simp [truthy, ht2]
    unfold formatRecipe
    rw [htr]
    refine ⟨_, rfl, ?_, ?_, ?_, ?_, ?_, ?_, ?_⟩
    · rw [h1]; rfl
    · rw [h2]; rfl
    · rw [h3]; rfl
    · show numOr r.total_time (numOr r.prep_time 0 + numOr r.cook_time 0) = 0
      rw [h4, h2, h3]
      show (0 : ℚ) + 0 = 0
      norm_num
    · show numOr r.total_time (numOr r.prep_time 0 + numOr r.cook_time 0)
        = numOr r.prep_time 0 + numOr r.cook_time 0
      rw [h4]
      rfl
    · rw [h5]; rfl
    · rw [h6]; rfl
  · intro r2 f2 h hf
    unfold formatRecipe at hf
    by_cases ht3 : truthy r2.title = false
    · rw [if_pos ht3] at hf
      exact Option.noConfusion hf
    · rw [if_neg ht3] at hf
      have hf2 := Option.some.inj hf
      subst hf2
      show numOr r2.total_time (numOr r2.prep_time 0 + numOr r2.cook_time 0)
        = numOr r2.prep_time 0 + numOr r2.cook_time 0
      rw [h]
      rfl

/-- Witness for C8: an import record carrying only a title and a cuisine. -/
theorem claim_C8_witness :
    ∃ f, formatRecipe { title := some "Cake", cuisine := some "French" } = some f ∧
      f.rating = 0 ∧ f.prep_time = 0 ∧ f.cook_time = 0 ∧ f.total_time = 0 ∧
      f.total_time = f.prep_time + f.cook_time ∧ f.ingredients = [] ∧ f.instructions = [] :=
  (claim_C8_seed_minimal_defaults { title := some "Cake", cuisine := some "French" } "Cake"
    rfl (by decide) rfl rfl rfl rfl rfl rfl).1

/-- Two filter objects of the list endpoint with equal fields are equal. -/
lemma queryA_ext (a b : QueryA) (h1 : a.qOr = b.qOr) (h2 : a.cuisine = b.cuisine)
    (h3 : a.rating = b.rating) (h4 : a.prep_time = b.prep_time)
    (h5 : a.cook_time = b.cook_time) (h6 : a.total_time = b.total_time) : a = b := by
  cases a
  cases b
  simp_all

/-- C9: in the list endpoint, when maxTotalTime and total_time are both
supplied with parsable numeric values, the exact-equality pass overwrites the
≤-threshold on the shared total_time key: the final filter is exactly the one
built without maxTotalTime, and it matches only records whose total_time
equals the parsed total_time value. -/
theorem claim_C9_total_time_exact_overwrites_max (p : ParamsA) (m s : String)
    (k : Int) (v : ℚ)
    (hm : p.maxTotalTime = some m) (hm2 : m ≠ "") (hk : parseIntJs m = some k)
    (hs : p.total_time = some s) (hv : handleNumberFilter s = some v) :
    (buildQueryA p).total_time = some (.eq (.num v)) ∧
    buildQueryA p = buildQueryA { p with maxTotalTime := none } ∧
    (∀ r : Recipe, matchQueryA (buildQueryA p) r = true → r.total_time = some v) := by
  have hae : ∀ cur, applyExact cur (some s) = some (.eq (.num v)) := by
    intro cur
    simp [applyExact, hv]
  have htot : (buildQueryA p).total_time = some (.eq (.num v)) := by
    rw [buildQueryA_total_time, hs, hae]
  refine ⟨htot, ?_, ?_⟩
  · apply queryA_ext
    · rw [buildQueryA_qOr, buildQueryA_qOr]
    · rw [buildQueryA_cuisine, buildQueryA_cuisine]
    · rw [buildQueryA_rating, buildQueryA_rating]
    · rw [buildQueryA_prep_time, buildQueryA_prep_time]
    · rw [buildQueryA_cook_time, buildQueryA_cook_time]
    · rw [htot, buildQueryA_total_time]
      show some (NumFilter.eq (.num v))
        = applyExact (if truthy (none : Option String) then _ else none) p.total_time
      rw [hs]
      simp [truthy, hae]
  · intro r hr
    unfold matchQueryA at hr
    simp only [Bool.and_eq_true] at hr
    have hc := hr.2
    rw [htot] at hc
    simp only [matchNumOpt, matchNum, decide_eq_true_eq] at hc
    exact hc

/-- Witness for C9 at maxTotalTime = "30", total_time = "25". -/
theorem claim_C9_witness :
    (buildQueryA { maxTotalTime := some "30", total_time := some "25" }).total_time
      = some (.eq (.num 25)) :=
  (claim_C9_total_time_exact_overwrites_max
    { maxTotalTime := some "30", total_time := some "25" } "30" "25" 30 25
    rfl (by decide) (by decide) rfl (by decide)).1

/-- C10: in every endpoint variant, supplying any query parameter as the
empty string produces exactly the same response as omitting the parameter:
empty text filters, numeric filters, operator selectors, pagination and sort
parameters are all treated as absent. -/
theorem claim_C10_empty_string_like_absent (db : List Recipe) (pA : ParamsA)
    (pB1 : ParamsB1) (pB2 : ParamsB2) :
    getRecipes db { pA with page := some "" } = getRecipes db { pA with page := none } ∧
    getRecipes db { pA with limit := some "" } = getRecipes db { pA with limit := none } ∧
    getRecipes db { pA with sortBy := some "" } = getRecipes db { pA with sortBy := none } ∧
    getRecipes db { pA with sortOrder := some "" } = getRecipes db { pA with sortOrder := none } ∧
    getRecipes db { pA with q := some "" } = getRecipes db { pA with q := none } ∧
    getRecipes db { pA with cuisine := some "" } = getRecipes db { pA with cuisine := none } ∧
    getRecipes db { pA with rating := some "" } = getRecipes db { pA with rating := none } ∧
    getRecipes db { pA with maxTotalTime := some "" } = getRecipes db { pA with maxTotalTime := none } ∧
    getRecipes db { pA with prep_time := some "" } = getRecipes db { pA with prep_time := none } ∧
    getRecipes db { pA with cook_time := some "" } = getRecipes db { pA with cook_time := none } ∧
    getRecipes db { pA with total_time := some "" } = getRecipes db { pA with total_time := none } ∧
    searchRecipesB1 db { pB1 with q := some "" } = searchRecipesB1 db { pB1 with q := none } ∧
    searchRecipesB1 db { pB1 with cuisine := some "" } = searchRecipesB1 db { pB1 with cuisine := none } ∧
    searchRecipesB1 db { pB1 with minRating := some "" } = searchRecipesB1 db { pB1 with minRating := none } ∧
    searchRecipesB1 db { pB1 with maxPrepTime := some "" } = searchRecipesB1 db { pB1 with maxPrepTime := none } ∧
    searchRecipesB1 db { pB1 with maxCookTime := some "" } = searchRecipesB1 db { pB1 with maxCookTime := none } ∧
    searchRecipesB1 db { pB1 with page := some "" } = searchRecipesB1 db { pB1 with page := none } ∧
    searchRecipesB1 db { pB1 with limit := some "" } = searchRecipesB1 db { pB1 with limit := none } ∧
    searchRecipesB1 db { pB1 with sortBy := some "" } = searchRecipesB1 db { pB1 with sortBy := none } ∧
    searchRecipesB1 db { pB1 with sortOrder := some "" } = searchRecipesB1 db { pB1 with sortOrder := none } ∧
    searchRecipesB2 db { pB2 with title := some "" } = searchRecipesB2 db { pB2 with title := none } ∧
    searchRecipesB2 db { pB2 with cuisine := some "" } = searchRecipesB2 db { pB2 with cuisine := none } ∧
    searchRecipesB2 db { pB2 with rating := some "" } = searchRecipesB2 db { pB2 with rating := none } ∧
    searchRecipesB2 db { pB2 with ratingOp := some "" } = searchRecipesB2 db { pB2 with ratingOp := none } ∧
    searchRecipesB2 db { pB2 with calories := some "" } = searchRecipesB2 db { pB2 with calories := none } ∧
    searchRecipesB2 db { pB2 with caloriesOp := some "" } = searchRecipesB2 db { pB2 with caloriesOp := none } ∧
    searchRecipesB2 db { pB2 with total_time := some "" } = searchRecipesB2 db { pB2 with total_time := none } ∧
    searchRecipesB2 db { pB2 with timeOp := some "" } = searchRecipesB2 db { pB2 with timeOp := none } ∧
    searchRecipesB2 db { pB2 with page := some "" } = searchRecipesB2 db { pB2 with page := none } ∧
    searchRecipesB2 db { pB2 with limit := some "" } = searchRecipesB2 db { pB2 with limit := none } ∧
    searchRecipesB2 db { pB2 with sortBy := some "" } = searchRecipesB2 db { pB2 with sortBy := none } ∧
    searchRecipesB2 db { pB2 with sortOrder := some "" } = searchRecipesB2 db { pB2 with sortOrder := none } := by
  exact ⟨rfl, rfl, rfl, rfl, rfl, rfl, rfl, rfl, rfl, rfl, rfl, rfl, rfl, rfl, rfl, rfl, rfl, rfl, rfl, rfl, rfl, rfl, rfl, rfl, rfl, rfl, rfl, rfl, rfl, rfl, rfl, rfl⟩

end RecipeData
